import Mathlib

/-!
# Verification of `app/update_result.py`

A shallow embedding of the update-result serialization module.  The module
defines a `Result` dataclass and two functions:

* `read`, which parses a JSON result file (via `json.load` with a custom
  `_ResultDecoder` whose `object_hook` converts `"timestamp"` entries with
  `iso8601.parse`) and builds a `Result`, defaulting each missing field;
* `write`, which turns a `Result` into a dictionary (`dataclasses.asdict`),
  renames `version_at_end` to `versionAtEnd`, and serializes it with
  `json.dump` using `_ResultEncoder` (datetimes become `iso8601.to_string`).

Python values that can appear during this process are modelled by `PyObj`;
Python exceptions by `PyErr`.  JSON text is modelled as a `String`; the JSON
scanner of the standard library is embedded as a fuel-indexed recursive
descent function `parseVal` that applies the decoder's object hook to every
object it completes, exactly as `json.load(..., cls=_ResultDecoder)` does.

Model boundaries: JSON numbers are modelled as integers (no floats, which the
module never produces), and a `\uXXXX` escape denoting a lone surrogate is
treated as a decode error (a Lean `Char` cannot hold a surrogate); neither
case can arise from output of `write`.
-/

/-- A (naive) `datetime.datetime` value, to second precision: the fields
`strptime`/`strftime` handle under the format `%Y-%m-%dT%H%M%SZ`. -/
structure Datetime where
  year : Nat
  month : Nat
  day : Nat
  hour : Nat
  minute : Nat
  second : Nat
  deriving DecidableEq

/-- The field ranges guaranteed for every Python `datetime` object:
`MINYEAR = 1`, `MAXYEAR = 9999`, and calendar/clock bounds. -/
def Datetime.Valid (t : Datetime) : Prop :=
  1 ≤ t.year ∧ t.year ≤ 9999 ∧ 1 ≤ t.month ∧ t.month ≤ 12 ∧ 1 ≤ t.day ∧
    t.day ≤ 31 ∧ t.hour ≤ 23 ∧ t.minute ≤ 59 ∧ t.second ≤ 59

instance (t : Datetime) : Decidable t.Valid := by
  unfold Datetime.Valid; infer_instance

/-- `datetime.datetime.utcfromtimestamp(0)`: the Unix epoch. -/
def utcfromtimestamp0 : Datetime := ⟨1970, 1, 1, 0, 0, 0⟩

/-- Python runtime values relevant to this module: the JSON-native values
plus `datetime` objects (produced by the decoder hook and consumed by the
encoder).  Dictionaries are insertion-ordered key/value lists, as in
Python 3.7+. -/
inductive PyObj where
  | null : PyObj
  | bool : Bool → PyObj
  | num : Int → PyObj
  | str : String → PyObj
  | dt : Datetime → PyObj
  | list : List PyObj → PyObj
  | dict : List (String × PyObj) → PyObj

mutual

def PyObj.decEq : (a b : PyObj) → Decidable (a = b)
  | .null, .null => isTrue rfl
  | .bool a, .bool b =>
    if h : a = b then isTrue (h ▸ rfl)
    else isFalse (fun hc => h (PyObj.bool.inj hc))
  | .num a, .num b =>
    if h : a = b then isTrue (h ▸ rfl)
    else isFalse (fun hc => h (PyObj.num.inj hc))
  | .str a, .str b =>
    if h : a = b then isTrue (h ▸ rfl)
    else isFalse (fun hc => h (PyObj.str.inj hc))
  | .dt a, .dt b =>
    if h : a = b then isTrue (h ▸ rfl)
    else isFalse (fun hc => h (PyObj.dt.inj hc))
  | .list xs, .list ys =>
    match PyObj.decEqList xs ys with
    | isTrue h => isTrue (h ▸ rfl)
    | isFalse h => isFalse (fun hc => h (PyObj.list.inj hc))
  | .dict xs, .dict ys =>
    match PyObj.decEqDict xs ys with
    | isTrue h => isTrue (h ▸ rfl)
    | isFalse h => isFalse (fun hc => h (PyObj.dict.inj hc))
  | .null, .bool _ => isFalse (by intro h; exact PyObj.noConfusion h)
  | .null, .num _ => isFalse (by intro h; exact PyObj.noConfusion h)
  | .null, .str _ => isFalse (by intro h; exact PyObj.noConfusion h)
  | .null, .dt _ => isFalse (by intro h; exact PyObj.noConfusion h)
  | .null, .list _ => isFalse (by intro h; exact PyObj.noConfusion h)
  | .null, .dict _ => isFalse (by intro h; exact PyObj.noConfusion h)
  | .bool _, .null => isFalse (by intro h; exact PyObj.noConfusion h)
  | .bool _, .num _ => isFalse (by intro h; exact PyObj.noConfusion h)
  | .bool _, .str _ => isFalse (by intro h; exact PyObj.noConfusion h)
  | .bool _, .dt _ => isFalse (by intro h; exact PyObj.noConfusion h)
  | .bool _, .list _ => isFalse (by intro h; exact PyObj.noConfusion h)
  | .bool _, .dict _ => isFalse (by intro h; exact PyObj.noConfusion h)
  | .num _, .null => isFalse (by intro h; exact PyObj.noConfusion h)
  | .num _, .bool _ => isFalse (by intro h; exact PyObj.noConfusion h)
  | .num _, .str _ => isFalse (by intro h; exact PyObj.noConfusion h)
  | .num _, .dt _ => isFalse (by intro h; exact PyObj.noConfusion h)
  | .num _, .list _ => isFalse (by intro h; exact PyObj.noConfusion h)
  | .num _, .dict _ => isFalse (by intro h; exact PyObj.noConfusion h)
  | .str _, .null => isFalse (by intro h; exact PyObj.noConfusion h)
  | .str _, .bool _ => isFalse (by intro h; exact PyObj.noConfusion h)
  | .str _, .num _ => isFalse (by intro h; exact PyObj.noConfusion h)
  | .str _, .dt _ => isFalse (by intro h; exact PyObj.noConfusion h)
  | .str _, .list _ => isFalse (by intro h; exact PyObj.noConfusion h)
  | .str _, .dict _ => isFalse (by intro h; exact PyObj.noConfusion h)
  | .dt _, .null => isFalse (by intro h; exact PyObj.noConfusion h)
  | .dt _, .bool _ => isFalse (by intro h; exact PyObj.noConfusion h)
  | .dt _, .num _ => isFalse (by intro h; exact PyObj.noConfusion h)
  | .dt _, .str _ => isFalse (by intro h; exact PyObj.noConfusion h)
  | .dt _, .list _ => isFalse (by intro h; exact PyObj.noConfusion h)
  | .dt _, .dict _ => isFalse (by intro h; exact PyObj.noConfusion h)
  | .list _, .null => isFalse (by intro h; exact PyObj.noConfusion h)
  | .list _, .bool _ => isFalse (by intro h; exact PyObj.noConfusion h)
  | .list _, .num _ => isFalse (by intro h; exact PyObj.noConfusion h)
  | .list _, .str _ => isFalse (by intro h; exact PyObj.noConfusion h)
  | .list _, .dt _ => isFalse (by intro h; exact PyObj.noConfusion h)
  | .list _, .dict _ => isFalse (by intro h; exact PyObj.noConfusion h)
  | .dict _, .null => isFalse (by intro h; exact PyObj.noConfusion h)
  | .dict _, .bool _ => isFalse (by intro h; exact PyObj.noConfusion h)
  | .dict _, .num _ => isFalse (by intro h; exact PyObj.noConfusion h)
  | .dict _, .str _ => isFalse (by intro h; exact PyObj.noConfusion h)
  | .dict _, .dt _ => isFalse (by intro h; exact PyObj.noConfusion h)
  | .dict _, .list _ => isFalse (by intro h; exact PyObj.noConfusion h)

def PyObj.decEqList : (xs ys : List PyObj) → Decidable (xs = ys)
  | [], [] => isTrue rfl
  | [], _ :: _ => isFalse (by intro h; exact List.noConfusion h)
  | _ :: _, [] => isFalse (by intro h; exact List.noConfusion h)
  | x :: xs, y :: ys =>
    match PyObj.decEq x y with
    | isTrue h1 =>
      match PyObj.decEqList xs ys with
      | isTrue h2 => isTrue (by rw [h1, h2])
      | isFalse h2 => isFalse (fun hc => h2 (List.cons.inj hc).2)
    | isFalse h1 => isFalse (fun hc => h1 (List.cons.inj hc).1)

def PyObj.decEqDict : (xs ys : List (String × PyObj)) → Decidable (xs = ys)
  | [], [] => isTrue rfl
  | [], _ :: _ => isFalse (by intro h; exact List.noConfusion h)
  | _ :: _, [] => isFalse (by intro h; exact List.noConfusion h)
  | (k, x) :: xs, (k', y) :: ys =>
    if hk : k = k' then
      match PyObj.decEq x y with
      | isTrue h1 =>
        match PyObj.decEqDict xs ys with
        | isTrue h2 => isTrue (by rw [hk, h1, h2])
        | isFalse h2 => isFalse (fun hc => h2 (List.cons.inj hc).2)
      | isFalse h1 => isFalse (fun hc => h1 (congrArg Prod.snd (List.cons.inj hc).1))
    else isFalse (fun hc => hk (congrArg Prod.fst (List.cons.inj hc).1))

end

instance : DecidableEq PyObj := PyObj.decEq

deriving instance DecidableEq for Except

/-- Python dictionary lookup `d[k]` / `d.get(k)` on an insertion-ordered
key/value list whose keys are unique (the only kind this module builds). -/
def dictGet (kvs : List (String × PyObj)) (k : String) : Option PyObj :=
  match kvs with
  | [] => none
  | (k', v) :: rest => if k' = k then some v else dictGet rest k

/-- Python dictionary assignment `d[k] = v`: replaces the value in place if
the key is present, otherwise appends the pair at the end, exactly as
insertion into a Python 3.7+ dict behaves. -/
def dictSet (kvs : List (String × PyObj)) (k : String) (v : PyObj) :
    List (String × PyObj) :=
  match kvs with
  | [] => [(k, v)]
  | (k', v') :: rest =>
    if k' = k then (k', v) :: rest else (k', v') :: dictSet rest k v

/-- Python `del d[k]`. -/
def dictDel (kvs : List (String × PyObj)) (k : String) :
    List (String × PyObj) :=
  match kvs with
  | [] => []
  | (k', v') :: rest =>
    if k' = k then rest else (k', v') :: dictDel rest k

/-- The Python exceptions that the module can let escape. -/
inductive PyErr where
  /-- `json.JSONDecodeError`, raised by the scanner on malformed input. -/
  | jsonDecodeError : String → PyErr
  /-- `ValueError`, raised by `strptime` on a string it cannot parse. -/
  | valueError : String → PyErr
  /-- `TypeError`, raised by `strptime` when given a non-string. -/
  | typeError : PyErr
  /-- `AttributeError`, raised by `.get` on a non-dictionary value. -/
  | attributeError : PyErr
  deriving DecidableEq

/-- Value of a decimal digit character, `none` for other characters. -/
def fromDigit (c : Char) : Option Nat :=
  if 48 ≤ c.toNat ∧ c.toNat ≤ 57 then some (c.toNat - 48) else none

/-- The decimal digit character for `n % 10`. -/
def toDigit (n : Nat) : Char := Char.ofNat (48 + n % 10)

/-- `n` rendered as exactly two decimal digits (for `n ≤ 99`). -/
def pad2 (n : Nat) : String := String.mk [toDigit (n / 10), toDigit n]

/-- `n` rendered as exactly four decimal digits (for `n ≤ 9999`). -/
def pad4 (n : Nat) : String :=
  String.mk [toDigit (n / 1000), toDigit (n / 100), toDigit (n / 10), toDigit n]

namespace Iso8601

/-- Modelled from the spec: the repository's `iso8601.to_string` helper is
not under `src/`; per the spec it formats a timestamp in ISO-8601 basic
form — compact, without separators in the time portion — as in the spec's
example `2021-02-10T085735Z`, i.e. `%Y-%m-%dT%H%M%SZ`. -/
def to_string (t : Datetime) : String :=
  pad4 t.year ++ "-" ++ pad2 t.month ++ "-" ++ pad2 t.day ++ "T" ++
    pad2 t.hour ++ pad2 t.minute ++ pad2 t.second ++ "Z"

/-- Modelled from the spec: the repository's `iso8601.parse` helper is not
under `src/`; per the spec it parses exactly the ISO-8601 basic form
`%Y-%m-%dT%H%M%SZ` shown above into a timestamp, returning `none` (a
`ValueError` in Python) for any string that does not match the format or
does not denote a valid datetime. -/
def parse (s : String) : Option Datetime :=
  match s.data with
  | [y3, y2, y1, y0, c1, m1, m0, c2, d1, d0, c3, h1, h0, mi1, mi0, s1, s0, c4] =>
    if c1 = '-' ∧ c2 = '-' ∧ c3 = 'T' ∧ c4 = 'Z' then
      match fromDigit y3, fromDigit y2, fromDigit y1, fromDigit y0,
          fromDigit m1, fromDigit m0, fromDigit d1, fromDigit d0,
          fromDigit h1, fromDigit h0, fromDigit mi1, fromDigit mi0,
          fromDigit s1, fromDigit s0 with
      | some a, some b, some c, some d, some e, some f, some g, some h,
          some i, some j, some k, some l, some m, some n =>
        if (⟨a * 1000 + b * 100 + c * 10 + d, e * 10 + f, g * 10 + h,
            i * 10 + j, k * 10 + l, m * 10 + n⟩ : Datetime).Valid then
          some ⟨a * 1000 + b * 100 + c * 10 + d, e * 10 + f, g * 10 + h,
            i * 10 + j, k * 10 + l, m * 10 + n⟩
        else none
      | _, _, _, _, _, _, _, _, _, _, _, _, _, _ => none
    else none
  | _ => none

end Iso8601

/-- `_ResultDecoder._decode_object`: the decoder's `object_hook`.  If the
just-decoded object has a `"timestamp"` entry, that entry is replaced by
`iso8601.parse` of its value; `strptime` raises `TypeError` on a non-string
and `ValueError` on an unparsable string, and the hook lets both escape. -/
def decode_object (kvs : List (String × PyObj)) :
    Except PyErr (List (String × PyObj)) :=
  match dictGet kvs "timestamp" with
  | none => .ok kvs
  | some (.str s) =>
    match Iso8601.parse s with
    | some t => .ok (dictSet kvs "timestamp" (.dt t))
    | none => .error (.valueError s)
  | some _ => .error .typeError

/-- The hexadecimal digit character for `k % 16`, lowercase as produced by
Python's `'\u\x7b0:04x\x7d'.format`. -/
def hexDigit (k : Nat) : Char :=
  Char.ofNat (if k % 16 < 10 then 48 + k % 16 else 87 + k % 16)

/-- `n` rendered as exactly four lowercase hexadecimal digits (`n ≤ 0xffff`). -/
def hex4 (n : Nat) : List Char :=
  [hexDigit (n / 4096), hexDigit (n / 256), hexDigit (n / 16), hexDigit n]

/-- How `json.dump` (with its default `ensure_ascii=True`) renders one
character of a string: `"`/`\` and the named control characters get
two-character escapes, other characters outside `0x20`–`0x7e` get `\uXXXX`
escapes (a surrogate pair for astral characters), and printable ASCII is
emitted verbatim. -/
def escapeChar (c : Char) : List Char :=
  if c = '"' then ['\\', '"']
  else if c = '\\' then ['\\', '\\']
  else if c = '\n' then ['\\', 'n']
  else if c = '\t' then ['\\', 't']
  else if c = '\r' then ['\\', 'r']
  else if c = '\x08' then ['\\', 'b']
  else if c = '\x0c' then ['\\', 'f']
  else if 0x20 ≤ c.toNat ∧ c.toNat ≤ 0x7e then [c]
  else if c.toNat < 0x10000 then '\\' :: 'u' :: hex4 c.toNat
  else
    '\\' :: 'u' :: hex4 (0xd800 + (c.toNat - 0x10000) / 0x400) ++
      '\\' :: 'u' :: hex4 (0xdc00 + (c.toNat - 0x10000) % 0x400)

/-- A JSON string literal: quote, escaped characters, quote. -/
def quoteString (s : String) : List Char :=
  '"' :: s.data.flatMap escapeChar ++ ['"']

/-- Python's decimal rendering of an integer. -/
def intRepr (n : Int) : String :=
  if n < 0 then "-" ++ Nat.repr n.natAbs else Nat.repr n.toNat

mutual

/-- `json.dump(v, f, cls=_ResultEncoder)` with default separators
`(', ', ': ')`: the exact character stream written for a value.  A
`datetime` is not JSON-native, so the encoder's `default` method renders it
via `iso8601.to_string`, and the resulting string is emitted. -/
def serializeVal : PyObj → List Char
  | .null => ['n', 'u', 'l', 'l']
  | .bool b => cond b ['t', 'r', 'u', 'e'] ['f', 'a', 'l', 's', 'e']
  | .num n => (intRepr n).data
  | .str s => quoteString s
  | .dt t => quoteString (Iso8601.to_string t)
  | .list xs => '[' :: serializeElems xs ++ [']']
  | .dict kvs => '\x7b' :: serializeMembers kvs ++ ['\x7d']

/-- Array elements, separated by `', '`. -/
def serializeElems : List PyObj → List Char
  | [] => []
  | [x] => serializeVal x
  | x :: y :: xs => serializeVal x ++ ',' :: ' ' :: serializeElems (y :: xs)

/-- Object members, in dictionary (insertion) order, `key: value` pairs
separated by `', '`. -/
def serializeMembers : List (String × PyObj) → List Char
  | [] => []
  | [(k, v)] => quoteString k ++ ':' :: ' ' :: serializeVal v
  | (k, v) :: m :: kvs =>
    quoteString k ++ ':' :: ' ' :: serializeVal v ++
      ',' :: ' ' :: serializeMembers (m :: kvs)

end

/-- Value of a hexadecimal digit character (either case), `none` otherwise. -/
def hexVal (c : Char) : Option Nat :=
  if 48 ≤ c.toNat ∧ c.toNat ≤ 57 then some (c.toNat - 48)
  else if 97 ≤ c.toNat ∧ c.toNat ≤ 102 then some (c.toNat - 87)
  else if 65 ≤ c.toNat ∧ c.toNat ≤ 70 then some (c.toNat - 55)
  else none

/-- The scanner's whitespace skipping (`[ \t\n\r]*`). -/
def skipWs : List Char → List Char
  | c :: rest =>
    if c = ' ' ∨ c = '\t' ∨ c = '\n' ∨ c = '\r' then skipWs rest else c :: rest
  | [] => []

/-- Four hexadecimal digits at the head of the input: their value and the
rest.  (The `\uXXXX` payload of the scanner.) -/
def hexVal4 : List Char → Option (Nat × List Char)
  | a :: b :: c :: d :: rest =>
    match hexVal a, hexVal b, hexVal c, hexVal d with
    | some ha, some hb, some hc, some hd =>
      some (ha * 4096 + hb * 256 + hc * 16 + hd, rest)
    | _, _, _, _ => none
  | _ => none

/-- A `\uXXXX` escape holding a low surrogate, at the head of the input:
the scanner looks for one immediately after a high surrogate. -/
def parseLowSurrogate : List Char → Option (Nat × List Char)
  | s1 :: s2 :: rest =>
    if s1 = '\\' ∧ s2 = 'u' then
      (hexVal4 rest).bind fun p =>
        if 0xdc00 ≤ p.1 ∧ p.1 ≤ 0xdfff then some p else none
    else none
  | _ => none

/-- One escape sequence of `py_scanstring`, positioned just after the
backslash: the two-character escapes, `\uXXXX`, and surrogate pairs.
Returns the decoded character and the rest, `none` on a malformed escape.
(An escape denoting a lone surrogate — which Python would keep in the
string — is not representable in a Lean `Char` and yields `none`.) -/
def unescape1 : List Char → Option (Char × List Char)
  | [] => none
  | e :: rest2 =>
    if e = 'u' then
      (hexVal4 rest2).bind fun p =>
        if 0xd800 ≤ p.1 ∧ p.1 ≤ 0xdbff then
          (parseLowSurrogate p.2).bind fun q =>
            some (Char.ofNat (0x10000 + (p.1 - 0xd800) * 0x400 + (q.1 - 0xdc00)),
              q.2)
        else if Nat.isValidChar p.1 then some (Char.ofNat p.1, p.2)
        else none
    else if e = '"' then some ('"', rest2)
    else if e = '\\' then some ('\\', rest2)
    else if e = '/' then some ('/', rest2)
    else if e = 'b' then some ('\x08', rest2)
    else if e = 'f' then some ('\x0c', rest2)
    else if e = 'n' then some ('\n', rest2)
    else if e = 'r' then some ('\r', rest2)
    else if e = 't' then some ('\t', rest2)
    else none

/-- `json.decoder.py_scanstring` (strict mode), positioned just after the
opening quote: scans up to the closing quote, decoding escapes via
`unescape1` and rejecting raw control characters.  `acc` holds the
characters scanned so far.  The `Nat` argument is fuel bounding the
recursion; callers pass more fuel than the input has characters, so the
out-of-fuel branch is unreachable (each step consumes at least one input
character). -/
def parseStrBody : Nat → List Char → List Char → Except PyErr (String × List Char)
  | 0, _, _ => .error (.jsonDecodeError "Fuel exhausted")
  | fuel + 1, acc, cs =>
    match cs with
    | [] => .error (.jsonDecodeError "Unterminated string")
    | c :: rest =>
      if c = '"' then .ok (String.mk acc, rest)
      else if c = '\\' then
        match unescape1 rest with
        | some (ch, rest2) => parseStrBody fuel (acc ++ [ch]) rest2
        | none => .error (.jsonDecodeError "Invalid escape")
      else if c.toNat < 0x20 then
        .error (.jsonDecodeError "Invalid control character")
      else parseStrBody fuel (acc ++ [c]) rest

/-- Matches an expected literal character sequence at the head of the
input, returning the rest on success (used for `true`, `false`, `null`). -/
def expectLit : List Char → List Char → Option (List Char)
  | [], cs => some cs
  | l :: ls, c :: cs => if c = l then expectLit ls cs else none
  | _ :: _, [] => none

/-- Accumulates a run of decimal digits into a number (the integer part of
the scanner's number regular expression). -/
def takeDigits (acc : Nat) : List Char → Nat × List Char
  | c :: rest =>
    match fromDigit c with
    | some d => takeDigits (acc * 10 + d) rest
    | none => (acc, c :: rest)
  | [] => (acc, [])

/-- The integer production of the scanner's number syntax: `0`, or a
nonzero digit followed by any digits (no redundant leading zeros). -/
def parseNatNum : List Char → Option (Nat × List Char)
  | '0' :: rest => some (0, rest)
  | c :: rest =>
    match fromDigit c with
    | some d => some (takeDigits d rest)
    | none => none
  | [] => none

/-- An optionally signed integer literal.  (JSON floats are outside the
model; the module never writes them.) -/
def parseNum : List Char → Except PyErr (PyObj × List Char)
  | '-' :: rest =>
    match parseNatNum rest with
    | some (n, rest2) => .ok (.num (-(n : Int)), rest2)
    | none => .error (.jsonDecodeError "Expecting value")
  | cs =>
    match parseNatNum cs with
    | some (n, rest2) => .ok (.num (n : Int), rest2)
    | none => .error (.jsonDecodeError "Expecting value")

mutual

/-- `scan_once` of the json scanner, with `_ResultDecoder` installed: scans
one JSON value starting at the head of the input, returning the value and
the remaining characters.  Completed objects are passed through the
decoder's `object_hook` (`decode_object`).  The `Nat` argument is fuel
bounding recursion depth; the entry point `parseJson` supplies more fuel
than any input can consume, so the out-of-fuel branch is unreachable. -/
def parseVal : Nat → List Char → Except PyErr (PyObj × List Char)
  | 0, _ => .error (.jsonDecodeError "Fuel exhausted")
  | fuel + 1, cs =>
    match cs with
    | [] => .error (.jsonDecodeError "Expecting value")
    | c :: rest =>
      if c = '\x7b' then
        match skipWs rest with
        | '\x7d' :: rest2 =>
          match decode_object [] with
          | .ok kvs => .ok (.dict kvs, rest2)
          | .error e => .error e
        | '"' :: rest2 => parseMembers fuel rest2 []
        | _ => .error (.jsonDecodeError "Expecting property name enclosed in double quotes")
      else if c = '[' then
        match skipWs rest with
        | ']' :: rest2 => .ok (.list [], rest2)
        | cs2 => parseElems fuel cs2 []
      else if c = '"' then
        match parseStrBody (rest.length + 1) [] rest with
        | .ok (s, r) => .ok (.str s, r)
        | .error e => .error e
      else if c = 't' then
        match expectLit ['r', 'u', 'e'] rest with
        | some r => .ok (.bool true, r)
        | none => .error (.jsonDecodeError "Expecting value")
      else if c = 'f' then
        match expectLit ['a', 'l', 's', 'e'] rest with
        | some r => .ok (.bool false, r)
        | none => .error (.jsonDecodeError "Expecting value")
      else if c = 'n' then
        match expectLit ['u', 'l', 'l'] rest with
        | some r => .ok (.null, r)
        | none => .error (.jsonDecodeError "Expecting value")
      else parseNum (c :: rest)

/-- The member loop of `JSONObject`, positioned just after the opening
quote of the next key.  Members accumulate into `acc` with dictionary
semantics (`dictSet`), and the finished object goes through the decoder's
`object_hook` before being returned, as `json.load(..., cls=_ResultDecoder)`
does. -/
def parseMembers : Nat → List Char → List (String × PyObj) →
    Except PyErr (PyObj × List Char)
  | 0, _, _ => .error (.jsonDecodeError "Fuel exhausted")
  | fuel + 1, cs, acc =>
    match parseStrBody (cs.length + 1) [] cs with
    | .error e => .error e
    | .ok (key, cs2) =>
      match skipWs cs2 with
      | ':' :: cs3 =>
        match parseVal fuel (skipWs cs3) with
        | .error e => .error e
        | .ok (v, cs4) =>
          match skipWs cs4 with
          | '\x7d' :: cs5 =>
            match decode_object (dictSet acc key v) with
            | .ok kvs => .ok (.dict kvs, cs5)
            | .error e => .error e
          | ',' :: cs5 =>
            match skipWs cs5 with
            | '"' :: cs6 => parseMembers fuel cs6 (dictSet acc key v)
            | _ => .error (.jsonDecodeError "Expecting property name enclosed in double quotes")
          | _ => .error (.jsonDecodeError "Expecting comma delimiter")
      | _ => .error (.jsonDecodeError "Expecting colon delimiter")

/-- The element loop of `JSONArray`, positioned at the start of the next
element (whitespace already skipped). -/
def parseElems : Nat → List Char → List PyObj →
    Except PyErr (PyObj × List Char)
  | 0, _, _ => .error (.jsonDecodeError "Fuel exhausted")
  | fuel + 1, cs, acc =>
    match parseVal fuel cs with
    | .error e => .error e
    | .ok (v, cs2) =>
      match skipWs cs2 with
      | ']' :: cs3 => .ok (.list (acc ++ [v]), cs3)
      | ',' :: cs3 => parseElems fuel (skipWs cs3) (acc ++ [v])
      | _ => .error (.jsonDecodeError "Expecting comma delimiter")

end

/-- `json.load` on character content `cs` with `cls=_ResultDecoder`:
leading whitespace is skipped, one value is scanned, and anything but
trailing whitespace afterwards is an error. -/
def parseJsonChars (cs : List Char) : Except PyErr PyObj :=
  match parseVal (cs.length + 1) (skipWs cs) with
  | .error e => .error e
  | .ok (v, rest) =>
    if skipWs rest = [] then .ok v else .error (.jsonDecodeError "Extra data")

/-- `json.load(result_file, cls=_ResultDecoder)` where the file holds the
text `s`. -/
def parseJson (s : String) : Except PyErr PyObj := parseJsonChars s.data

/-- The `Result` dataclass.  Python dataclasses carry no runtime type
enforcement, so each field holds an arbitrary Python value; the declared
field types (`bool`, `str`, `datetime`, `str`) are what well-typed records
hold. -/
structure Result where
  success : PyObj
  error : PyObj
  timestamp : PyObj
  version_at_end : PyObj
  deriving DecidableEq

/-- The `Result(...)` construction in `read`: each field comes from
`raw_result.get(key, default)`. -/
def extractResult (kvs : List (String × PyObj)) : Result where
  success := (dictGet kvs "success").getD (.bool false)
  error := (dictGet kvs "error").getD (.str "")
  timestamp := (dictGet kvs "timestamp").getD (.dt utcfromtimestamp0)
  version_at_end := (dictGet kvs "versionAtEnd").getD (.str "")

/-- `read(result_file)`: parse the file with the custom decoder, then build
a `Result` with `.get` defaults.  `.get` on a non-dictionary top-level
value raises `AttributeError`. -/
def read (result_file : String) : Except PyErr Result :=
  match parseJson result_file with
  | .error e => .error e
  | .ok (.dict kvs) => .ok (extractResult kvs)
  | .ok _ => .error .attributeError

/-- Whether a key is one of the four that `read` looks up (`extractResult`
consults no others). -/
def knownKey (k : String) : Bool :=
  k == "success" || k == "error" || k == "timestamp" || k == "versionAtEnd"

/-- `dataclasses.asdict(result)`: a fresh dictionary holding the four
fields in declaration order. -/
def asdict (result : Result) : List (String × PyObj) :=
  [("success", result.success), ("error", result.error),
    ("timestamp", result.timestamp), ("version_at_end", result.version_at_end)]

/-- The dictionary that `write` serializes: `result_dict` built by
`asdict`, then `result_dict['versionAtEnd'] = result_dict['version_at_end']`
(`dictGet` cannot miss — `asdict` always has the key — so the `.getD .null`
fallback is dead), then `del result_dict['version_at_end']`. -/
def write_result_dict (result : Result) : List (String × PyObj) :=
  let result_dict := asdict result
  let result_dict := dictSet result_dict "versionAtEnd"
    ((dictGet result_dict "version_at_end").getD .null)
  dictDel result_dict "version_at_end"

/-- The body of `write(result, result_file)` with the state threaded
explicitly.  The first component is the text written to the file; the
second is the record after the call — the source only ever assigns into
the copied `result_dict`, never into `result`. -/
def writeExec (result : Result) : String × Result :=
  (String.mk (serializeVal (.dict (write_result_dict result))), result)

/-- The text that `write(result, result_file)` writes to the file. -/
def write (result : Result) : String := (writeExec result).1

/-! ## Digit and timestamp format lemmas -/

theorem fromDigit_ofNat (k : Nat) (hk : k < 10) :
    fromDigit (Char.ofNat (48 + k)) = some k := by
  interval_cases k <;> decide

theorem fromDigit_toDigit (n : Nat) : fromDigit (toDigit n) = some (n % 10) :=
  fromDigit_ofNat (n % 10) (Nat.mod_lt _ (by norm_num))

theorem fromDigit_eq_some (c : Char) (a : Nat) (h : fromDigit c = some a) :
    a ≤ 9 ∧ toDigit a = c := by
  unfold fromDigit at h
  split at h
  · rename_i hc
    injection h with h
    refine ⟨by omega, ?_⟩
    unfold toDigit
    have h10 : a % 10 = a := Nat.mod_eq_of_lt (by omega)
    have h48 : 48 + a % 10 = c.toNat := by omega
    rw [h48, Char.ofNat_toNat]
  · exact absurd h (by simp)

theorem hexVal_hexDigit (k : Nat) (hk : k < 16) : hexVal (hexDigit k) = some k := by
  unfold hexDigit
  rw [Nat.mod_eq_of_lt hk]
  interval_cases k <;> decide

theorem Iso8601.to_string_data (t : Datetime) :
    (Iso8601.to_string t).data =
      [toDigit (t.year / 1000), toDigit (t.year / 100), toDigit (t.year / 10),
        toDigit t.year, '-', toDigit (t.month / 10), toDigit t.month, '-',
        toDigit (t.day / 10), toDigit t.day, 'T', toDigit (t.hour / 10),
        toDigit t.hour, toDigit (t.minute / 10), toDigit t.minute,
        toDigit (t.second / 10), toDigit t.second, 'Z'] := by
  simp [Iso8601.to_string, pad4, pad2, String.data_append]

theorem Iso8601.parse_to_string (t : Datetime) (h : t.Valid) :
    Iso8601.parse (Iso8601.to_string t) = some t := by
  obtain ⟨y, mo, d, hh, mi, s⟩ := t
  unfold Datetime.Valid at h
  dsimp only at h
  obtain ⟨h1, h2, h3, h4, h5, h6, h7, h8, h9⟩ := h
  unfold Iso8601.parse
  rw [Iso8601.to_string_data]
  simp only [fromDigit_toDigit]
  rw [if_pos ⟨trivial, trivial, trivial, trivial⟩]
  have hy : y / 1000 % 10 * 1000 + y / 100 % 10 * 100 + y / 10 % 10 * 10 + y % 10 = y := by
    omega
  have hmo : mo / 10 % 10 * 10 + mo % 10 = mo := by omega
  have hd : d / 10 % 10 * 10 + d % 10 = d := by omega
  have hhh : hh / 10 % 10 * 10 + hh % 10 = hh := by omega
  have hmi : mi / 10 % 10 * 10 + mi % 10 = mi := by omega
  have hs : s / 10 % 10 * 10 + s % 10 = s := by omega
  simp only [hy, hmo, hd, hhh, hmi, hs]
  rw [if_pos (show Datetime.Valid ⟨y, mo, d, hh, mi, s⟩ by
    unfold Datetime.Valid
    exact ⟨h1, h2, h3, h4, h5, h6, h7, h8, h9⟩)]

theorem Iso8601.to_string_of_parse (s : String) (t : Datetime)
    (h : Iso8601.parse s = some t) : Iso8601.to_string t = s ∧ t.Valid := by
  unfold Iso8601.parse at h
  split at h
  case _ y3 y2 y1 y0 c1 m1 m0 c2 d1 d0 c3 h1 h0 mi1 mi0 s1 s0 c4 hdata =>
    split at h
    case isFalse => exact absurd h (by simp)
    case isTrue hsep =>
      obtain ⟨e1, e2, e3, e4⟩ := hsep
      split at h
      case _ a b c d e f g hD i j k l m n ha hb hc hd he hf hg hh hi hj hk hl hm hn =>
        split at h
        case isFalse => exact absurd h (by simp)
        case isTrue hvalid =>
          injection h with h
          subst h
          refine ⟨?_, hvalid⟩
          obtain ⟨da, ta⟩ := fromDigit_eq_some _ _ ha
          obtain ⟨db, tb⟩ := fromDigit_eq_some _ _ hb
          obtain ⟨dc, tc⟩ := fromDigit_eq_some _ _ hc
          obtain ⟨dd, td⟩ := fromDigit_eq_some _ _ hd
          obtain ⟨de, te⟩ := fromDigit_eq_some _ _ he
          obtain ⟨df, tf⟩ := fromDigit_eq_some _ _ hf
          obtain ⟨dg, tg⟩ := fromDigit_eq_some _ _ hg
          obtain ⟨dh, th⟩ := fromDigit_eq_some _ _ hh
          obtain ⟨di, ti⟩ := fromDigit_eq_some _ _ hi
          obtain ⟨dj, tj⟩ := fromDigit_eq_some _ _ hj
          obtain ⟨dk, tk⟩ := fromDigit_eq_some _ _ hk
          obtain ⟨dl, tl⟩ := fromDigit_eq_some _ _ hl
          obtain ⟨dm, tm⟩ := fromDigit_eq_some _ _ hm
          obtain ⟨dn, tn⟩ := fromDigit_eq_some _ _ hn
          apply String.ext
          rw [Iso8601.to_string_data, hdata]
          have q1 : (a * 1000 + b * 100 + c * 10 + d) / 1000 = a := by omega
          have q2 : (a * 1000 + b * 100 + c * 10 + d) / 100 = a * 10 + b := by
            omega
          have q3 : (a * 1000 + b * 100 + c * 10 + d) / 10 = a * 100 + b * 10 + c := by
            omega
          have q4 : (e * 10 + f) / 10 = e := by omega
          have q5 : (g * 10 + hD) / 10 = g := by omega
          have q6 : (i * 10 + j) / 10 = i := by omega
          have q7 : (k * 10 + l) / 10 = k := by omega
          have q8 : (m * 10 + n) / 10 = m := by omega
          simp only [q1, q2, q3, q4, q5, q6, q7, q8]
          have r1 : toDigit (a * 10 + b) = toDigit b := by
            unfold toDigit; congr 1; omega
          have r2 : toDigit (a * 100 + b * 10 + c) = toDigit c := by
            unfold toDigit; congr 1; omega
          have r3 : toDigit (a * 1000 + b * 100 + c * 10 + d) = toDigit d := by
            unfold toDigit; congr 1; omega
          have r4 : toDigit (e * 10 + f) = toDigit f := by
            unfold toDigit; congr 1; omega
          have r5 : toDigit (g * 10 + hD) = toDigit hD := by
            unfold toDigit; congr 1; omega
          have r6 : toDigit (i * 10 + j) = toDigit j := by
            unfold toDigit; congr 1; omega
          have r7 : toDigit (k * 10 + l) = toDigit l := by
            unfold toDigit; congr 1; omega
          have r8 : toDigit (m * 10 + n) = toDigit n := by
            unfold toDigit; congr 1; omega
          rw [r1, r2, r3, r4, r5, r6, r7, r8,
            ta, tb, tc, td, te, tf, tg, th, ti, tj, tk, tl, tm, tn, e1, e2, e3, e4]
      case _ => exact absurd h (by simp)
  case _ => exact absurd h (by simp)

/-! ## String escaping round trip -/

theorem hexVal_hexDigit_mod (k : Nat) : hexVal (hexDigit k) = some (k % 16) := by
  unfold hexDigit
  have hk : k % 16 < 16 := Nat.mod_lt _ (by norm_num)
  revert hk
  generalize k % 16 = m
  intro hk
  interval_cases m <;> decide

theorem escapeChar_length_pos (c : Char) : 0 < (escapeChar c).length := by
  unfold escapeChar
  split_ifs <;> simp [hex4]

theorem parseStrBody_cons (g : Nat) (acc : List Char) (c : Char) (rest : List Char) :
    parseStrBody (g + 1) acc (c :: rest) =
      if c = '"' then .ok (String.mk acc, rest)
      else if c = '\\' then
        match unescape1 rest with
        | some (ch, rest2) => parseStrBody g (acc ++ [ch]) rest2
        | none => .error (.jsonDecodeError "Invalid escape")
      else if c.toNat < 0x20 then
        .error (.jsonDecodeError "Invalid control character")
      else parseStrBody g (acc ++ [c]) rest := rfl

theorem hexVal4_hex4 (k : Nat) (tail : List Char) :
    hexVal4 (hex4 k ++ tail) =
      some (k / 4096 % 16 * 4096 + k / 256 % 16 * 256 + k / 16 % 16 * 16 +
        k % 16, tail) := by
  simp [hex4, hexVal4, hexVal_hexDigit_mod]

theorem parseStrBody_escapeChar (g : Nat) (c : Char) (acc tail : List Char) :
    parseStrBody (g + 1) acc (escapeChar c ++ tail) =
      parseStrBody g (acc ++ [c]) tail := by
  have hvalid : c.toNat < 0xd800 ∨ (0xdfff < c.toNat ∧ c.toNat < 0x110000) :=
    c.valid
  unfold escapeChar
  split_ifs with hq hbs hn ht hr hb hf hp hlow
  all_goals simp only [List.cons_append, List.nil_append, List.append_assoc]
  · subst hq
    rw [parseStrBody_cons, if_neg (by decide), if_pos rfl, unescape1,
      if_neg (by decide), if_pos rfl]
  · subst hbs
    rw [parseStrBody_cons, if_neg (by decide), if_pos rfl, unescape1,
      if_neg (by decide), if_neg (by decide), if_pos rfl]
  · subst hn
    rw [parseStrBody_cons, if_neg (by decide), if_pos rfl, unescape1,
      if_neg (by decide), if_neg (by decide), if_neg (by decide),
      if_neg (by decide), if_neg (by decide), if_neg (by decide), if_pos rfl]
  · subst ht
    rw [parseStrBody_cons, if_neg (by decide), if_pos rfl, unescape1,
      if_neg (by decide), if_neg (by decide), if_neg (by decide),
      if_neg (by decide), if_neg (by decide), if_neg (by decide),
      if_neg (by decide), if_neg (by decide), if_pos rfl]
  · subst hr
    rw [parseStrBody_cons, if_neg (by decide), if_pos rfl, unescape1,
      if_neg (by decide), if_neg (by decide), if_neg (by decide),
      if_neg (by decide), if_neg (by decide), if_neg (by decide),
      if_neg (by decide), if_pos rfl]
  · subst hb
    rw [parseStrBody_cons, if_neg (by decide), if_pos rfl, unescape1,
      if_neg (by decide), if_neg (by decide), if_neg (by decide),
      if_neg (by decide), if_pos rfl]
  · subst hf
    rw [parseStrBody_cons, if_neg (by decide), if_pos rfl, unescape1,
      if_neg (by decide), if_neg (by decide), if_neg (by decide),
      if_neg (by decide), if_neg (by decide), if_pos rfl]
  · -- printable ASCII, not quote or backslash
    show parseStrBody (g + 1) acc (c :: tail) = _
    rw [parseStrBody_cons, if_neg hq, if_neg hbs, if_neg (by omega : ¬c.toNat < 32)]
  · -- basic-plane character, escaped as a single uXXXX
    rw [parseStrBody_cons, if_neg (by decide), if_pos rfl, unescape1,
      if_pos rfl, hexVal4_hex4, Option.some_bind]
    have hn4 : c.toNat / 4096 % 16 * 4096 + c.toNat / 256 % 16 * 256 +
        c.toNat / 16 % 16 * 16 + c.toNat % 16 = c.toNat := by omega
    simp only [hn4]
    rw [if_neg (by omega : ¬(0xd800 ≤ c.toNat ∧ c.toNat ≤ 0xdbff))]
    rw [if_pos (show c.toNat.isValidChar from c.valid), Char.ofNat_toNat]
  · -- astral character, escaped as a surrogate pair
    rw [parseStrBody_cons, if_neg (by decide), if_pos rfl, unescape1,
      if_pos rfl, hexVal4_hex4, Option.some_bind]
    have hup : c.toNat < 0x110000 := by omega
    have hhi : (0xd800 + (c.toNat - 0x10000) / 0x400) / 4096 % 16 * 4096 +
        (0xd800 + (c.toNat - 0x10000) / 0x400) / 256 % 16 * 256 +
        (0xd800 + (c.toNat - 0x10000) / 0x400) / 16 % 16 * 16 +
        (0xd800 + (c.toNat - 0x10000) / 0x400) % 16 =
        0xd800 + (c.toNat - 0x10000) / 0x400 := by omega
    simp only [hhi]
    rw [if_pos (by omega : 0xd800 ≤ 0xd800 + (c.toNat - 0x10000) / 0x400 ∧
      0xd800 + (c.toNat - 0x10000) / 0x400 ≤ 0xdbff)]
    rw [parseLowSurrogate, if_pos ⟨rfl, rfl⟩, hexVal4_hex4, Option.some_bind]
    have hlo : (0xdc00 + (c.toNat - 0x10000) % 0x400) / 4096 % 16 * 4096 +
        (0xdc00 + (c.toNat - 0x10000) % 0x400) / 256 % 16 * 256 +
        (0xdc00 + (c.toNat - 0x10000) % 0x400) / 16 % 16 * 16 +
        (0xdc00 + (c.toNat - 0x10000) % 0x400) % 16 =
        0xdc00 + (c.toNat - 0x10000) % 0x400 := by omega
    simp only [hlo]
    rw [if_pos (by omega : 0xdc00 ≤ 0xdc00 + (c.toNat - 0x10000) % 0x400 ∧
      0xdc00 + (c.toNat - 0x10000) % 0x400 ≤ 0xdfff), Option.some_bind]
    have hq1 : ((0xdc00 + (c.toNat - 0x10000) % 0x400, tail) : Nat × List Char).1 =
      0xdc00 + (c.toNat - 0x10000) % 0x400 := rfl
    have hq2 : ((0xdc00 + (c.toNat - 0x10000) % 0x400, tail) : Nat × List Char).2 =
      tail := rfl
    rw [hq1, hq2]
    have hcomb : Char.ofNat (0x10000 +
        (0xd800 + (c.toNat - 0x10000) / 0x400 - 0xd800) * 0x400 +
        (0xdc00 + (c.toNat - 0x10000) % 0x400 - 0xdc00)) = c := by
      have h9 : 0x10000 +
          (0xd800 + (c.toNat - 0x10000) / 0x400 - 0xd800) * 0x400 +
          (0xdc00 + (c.toNat - 0x10000) % 0x400 - 0xdc00) = c.toNat := by omega
      rw [h9, Char.ofNat_toNat]
    rw [hcomb]

theorem parseStrBody_flatMap (l : List Char) (f : Nat) (acc tail : List Char) :
    parseStrBody (l.length + (f + 1)) acc (l.flatMap escapeChar ++ '"' :: tail) =
      .ok (String.mk (acc ++ l), tail) := by
  induction l generalizing acc with
  | nil =>
    rw [List.flatMap_nil, List.nil_append, List.length_nil, Nat.zero_add,
      parseStrBody, if_pos rfl]
    simp
  | cons c cs ih =>
    have hlen : (c :: cs).length + (f + 1) = (cs.length + (f + 1)) + 1 := by
      simp [List.length_cons]
      omega
    rw [List.flatMap_cons, List.append_assoc, hlen, parseStrBody_escapeChar, ih]
    simp

/-! ## Scanner stepping lemmas -/

theorem skipWs_cons_of (c : Char) (rest : List Char)
    (h : ¬(c = ' ' ∨ c = '\t' ∨ c = '\n' ∨ c = '\r')) :
    skipWs (c :: rest) = c :: rest := by
  rw [skipWs, if_neg h]

theorem parseVal_cons (fuel : Nat) (c : Char) (rest : List Char) :
    parseVal (fuel + 1) (c :: rest) =
      (if c = '\x7b' then
        match skipWs rest with
        | '\x7d' :: rest2 =>
          match decode_object [] with
          | .ok kvs => .ok (.dict kvs, rest2)
          | .error e => .error e
        | '"' :: rest2 => parseMembers fuel rest2 []
        | _ => .error (.jsonDecodeError "Expecting property name enclosed in double quotes")
      else if c = '[' then
        match skipWs rest with
        | ']' :: rest2 => .ok (.list [], rest2)
        | cs2 => parseElems fuel cs2 []
      else if c = '"' then
        match parseStrBody (rest.length + 1) [] rest with
        | .ok (s, r) => .ok (.str s, r)
        | .error e => .error e
      else if c = 't' then
        match expectLit ['r', 'u', 'e'] rest with
        | some r => .ok (.bool true, r)
        | none => .error (.jsonDecodeError "Expecting value")
      else if c = 'f' then
        match expectLit ['a', 'l', 's', 'e'] rest with
        | some r => .ok (.bool false, r)
        | none => .error (.jsonDecodeError "Expecting value")
      else if c = 'n' then
        match expectLit ['u', 'l', 'l'] rest with
        | some r => .ok (.null, r)
        | none => .error (.jsonDecodeError "Expecting value")
      else parseNum (c :: rest)) := rfl

theorem parseMembers_succ (fuel : Nat) (cs : List Char)
    (acc : List (String × PyObj)) :
    parseMembers (fuel + 1) cs acc =
      (match parseStrBody (cs.length + 1) [] cs with
      | .error e => .error e
      | .ok (key, cs2) =>
        match skipWs cs2 with
        | ':' :: cs3 =>
          match parseVal fuel (skipWs cs3) with
          | .error e => .error e
          | .ok (v, cs4) =>
            match skipWs cs4 with
            | '\x7d' :: cs5 =>
              match decode_object (dictSet acc key v) with
              | .ok kvs => .ok (.dict kvs, cs5)
              | .error e => .error e
            | ',' :: cs5 =>
              match skipWs cs5 with
              | '"' :: cs6 => parseMembers fuel cs6 (dictSet acc key v)
              | _ => .error (.jsonDecodeError "Expecting property name enclosed in double quotes")
            | _ => .error (.jsonDecodeError "Expecting comma delimiter")
        | _ => .error (.jsonDecodeError "Expecting colon delimiter")) := rfl

theorem parseVal_true (fuel : Nat) (tail : List Char) :
    parseVal (fuel + 1) ('t' :: 'r' :: 'u' :: 'e' :: tail) =
      .ok (.bool true, tail) := by
  rw [parseVal_cons, if_neg (by decide), if_neg (by decide), if_neg (by decide),
    if_pos rfl]
  have h : expectLit ['r', 'u', 'e'] ('r' :: 'u' :: 'e' :: tail) = some tail := by
    simp [expectLit]
  rw [h]

theorem parseVal_false (fuel : Nat) (tail : List Char) :
    parseVal (fuel + 1) ('f' :: 'a' :: 'l' :: 's' :: 'e' :: tail) =
      .ok (.bool false, tail) := by
  rw [parseVal_cons, if_neg (by decide), if_neg (by decide), if_neg (by decide),
    if_neg (by decide), if_pos rfl]
  have h : expectLit ['a', 'l', 's', 'e'] ('a' :: 'l' :: 's' :: 'e' :: tail) =
      some tail := by
    simp [expectLit]
  rw [h]

theorem parseStrBody_full (l t : List Char) :
    parseStrBody ((l.flatMap escapeChar ++ '"' :: t).length + 1) []
      (l.flatMap escapeChar ++ '"' :: t) = .ok (String.mk l, t) := by
  have hlen : l.length ≤ (l.flatMap escapeChar).length := by
    induction l with
    | nil => simp
    | cons c cs ih =>
      have hc := escapeChar_length_pos c
      simp only [List.flatMap_cons, List.length_append, List.length_cons]
      omega
  have hf : (l.flatMap escapeChar ++ '"' :: t).length + 1 =
      l.length +
        (((l.flatMap escapeChar).length + t.length + 1 - l.length) + 1) := by
    simp only [List.length_append, List.length_cons]
    omega
  rw [hf, parseStrBody_flatMap]
  simp

theorem parseVal_strExposed (g : Nat) (l t : List Char) :
    parseVal (g + 1) ('"' :: (l.flatMap escapeChar ++ '"' :: t)) =
      .ok (.str (String.mk l), t) := by
  rw [parseVal_cons, if_neg (by decide), if_neg (by decide), if_pos rfl,
    parseStrBody_full]

theorem parseVal_quoteString (fuel : Nat) (s : String) (tail : List Char) :
    parseVal (fuel + 1) (quoteString s ++ tail) = .ok (.str s, tail) := by
  rw [show quoteString s ++ tail =
    '"' :: (s.data.flatMap escapeChar ++ '"' :: tail) by simp [quoteString]]
  rw [parseVal_strExposed]

theorem skipWs_space (l : List Char) : skipWs (' ' :: l) = skipWs l := by
  rw [skipWs, if_pos (Or.inl rfl)]

theorem parseMembers_step (g : Nat) (kl REST NEXT : List Char)
    (acc : List (String × PyObj)) (v' : PyObj)
    (hskip : skipWs REST = REST)
    (hv : parseVal (g + 1) REST = .ok (v', ',' :: ' ' :: '"' :: NEXT)) :
    parseMembers (g + 1 + 1)
      (kl.flatMap escapeChar ++ '"' :: ':' :: ' ' :: REST) acc =
      parseMembers (g + 1) NEXT (dictSet acc (String.mk kl) v') := by
  rw [parseMembers_succ, parseStrBody_full]
  simp only [hskip, hv, skipWs_space,
    skipWs_cons_of ':' (' ' :: REST) (by decide),
    skipWs_cons_of ',' (' ' :: '"' :: NEXT) (by decide),
    skipWs_cons_of '"' NEXT (by decide)]

theorem parseMembers_last (g : Nat) (kl REST tail : List Char)
    (acc : List (String × PyObj)) (v' : PyObj)
    (hskip : skipWs REST = REST)
    (hv : parseVal (g + 1) REST = .ok (v', '\x7d' :: tail)) :
    parseMembers (g + 1 + 1)
      (kl.flatMap escapeChar ++ '"' :: ':' :: ' ' :: REST) acc =
      match decode_object (dictSet acc (String.mk kl) v') with
      | .ok kvs => .ok (.dict kvs, tail)
      | .error err => .error err := by
  rw [parseMembers_succ, parseStrBody_full]
  simp only [hskip, hv, skipWs_space,
    skipWs_cons_of ':' (' ' :: REST) (by decide),
    skipWs_cons_of '\x7d' tail (by decide)]

theorem parseMembers_step_false (g : Nat) (kl NEXT : List Char)
    (acc : List (String × PyObj)) :
    parseMembers (g + 1 + 1)
      (kl.flatMap escapeChar ++ '"' :: ':' :: ' ' ::
        'f' :: 'a' :: 'l' :: 's' :: 'e' :: ',' :: ' ' :: '"' :: NEXT) acc =
      parseMembers (g + 1) NEXT (dictSet acc (String.mk kl) (.bool false)) :=
  parseMembers_step g kl _ NEXT acc (.bool false)
    (skipWs_cons_of 'f' _ (by decide)) (parseVal_false g _)

theorem parseMembers_step_true (g : Nat) (kl NEXT : List Char)
    (acc : List (String × PyObj)) :
    parseMembers (g + 1 + 1)
      (kl.flatMap escapeChar ++ '"' :: ':' :: ' ' ::
        't' :: 'r' :: 'u' :: 'e' :: ',' :: ' ' :: '"' :: NEXT) acc =
      parseMembers (g + 1) NEXT (dictSet acc (String.mk kl) (.bool true)) :=
  parseMembers_step g kl _ NEXT acc (.bool true)
    (skipWs_cons_of 't' _ (by decide)) (parseVal_true g _)

theorem parseMembers_step_str (g : Nat) (kl l NEXT : List Char)
    (acc : List (String × PyObj)) :
    parseMembers (g + 1 + 1)
      (kl.flatMap escapeChar ++ '"' :: ':' :: ' ' ::
        '"' :: (l.flatMap escapeChar ++ '"' :: ',' :: ' ' :: '"' :: NEXT)) acc =
      parseMembers (g + 1) NEXT
        (dictSet acc (String.mk kl) (.str (String.mk l))) :=
  parseMembers_step g kl _ NEXT acc (.str (String.mk l))
    (skipWs_cons_of '"' _ (by decide)) (parseVal_strExposed g l _)

theorem parseMembers_last_str (g : Nat) (kl l tail : List Char)
    (acc : List (String × PyObj)) :
    parseMembers (g + 1 + 1)
      (kl.flatMap escapeChar ++ '"' :: ':' :: ' ' ::
        '"' :: (l.flatMap escapeChar ++ '"' :: '\x7d' :: tail)) acc =
      match decode_object (dictSet acc (String.mk kl) (.str (String.mk l))) with
      | .ok kvs => .ok (.dict kvs, tail)
      | .error err => .error err :=
  parseMembers_last g kl _ tail acc (.str (String.mk l))
    (skipWs_cons_of '"' _ (by decide)) (parseVal_strExposed g l _)

theorem parseVal_record (f : Nat) (b : Bool) (e ts v : String) (tail : List Char) :
    parseVal (f + 1 + 1 + 1 + 1 + 1 + 1)
      (serializeVal (.dict [("success", .bool b), ("error", .str e),
        ("timestamp", .str ts), ("versionAtEnd", .str v)]) ++ tail) =
      match decode_object [("success", .bool b), ("error", .str e),
        ("timestamp", .str ts), ("versionAtEnd", .str v)] with
      | .ok kvs => .ok (.dict kvs, tail)
      | .error err => .error err := by
  have he : String.mk e.data = e := by cases e; rfl
  have hts : String.mk ts.data = ts := by cases ts; rfl
  have hv : String.mk v.data = v := by cases v; rfl
  cases b <;>
    · simp only [serializeVal, serializeMembers, quoteString, cond_true,
        cond_false, List.cons_append, List.nil_append, List.append_assoc,
        List.singleton_append]
      rw [parseVal_cons, if_pos rfl]
      simp only [skipWs_cons_of '"' _ (by decide)]
      first
      | rw [parseMembers_step_false]
      | rw [parseMembers_step_true]
      rw [parseMembers_step_str, parseMembers_step_str, parseMembers_last_str]
      rw [he, hts, hv]
      rfl

theorem parseVal_record_nil (f : Nat) (b : Bool) (e ts v : String) :
    parseVal (f + 1 + 1 + 1 + 1 + 1 + 1)
      (serializeVal (.dict [("success", .bool b), ("error", .str e),
        ("timestamp", .str ts), ("versionAtEnd", .str v)])) =
      match decode_object [("success", .bool b), ("error", .str e),
        ("timestamp", .str ts), ("versionAtEnd", .str v)] with
      | .ok kvs => .ok (.dict kvs, ([] : List Char))
      | .error err => .error err := by
  have h := parseVal_record f b e ts v []
  rwa [List.append_nil] at h

theorem serializeVal_record_length (b : Bool) (e ts v : String) :
    5 ≤ (serializeVal (.dict [("success", .bool b), ("error", .str e),
      ("timestamp", .str ts), ("versionAtEnd", .str v)])).length := by
  rw [show serializeVal (.dict [("success", .bool b), ("error", .str e),
      ("timestamp", .str ts), ("versionAtEnd", .str v)]) =
    '\x7b' :: (serializeMembers [("success", .bool b), ("error", .str e),
      ("timestamp", .str ts), ("versionAtEnd", .str v)] ++ ['\x7d']) from by
    rw [serializeVal, List.cons_append]]
  rw [show serializeMembers [("success", .bool b), ("error", .str e),
      ("timestamp", .str ts), ("versionAtEnd", .str v)] =
    quoteString "success" ++ ':' :: ' ' :: serializeVal (.bool b) ++
      ',' :: ' ' :: serializeMembers [("error", .str e),
        ("timestamp", .str ts), ("versionAtEnd", .str v)] from by
    rw [serializeMembers]]
  have h9 : (quoteString "success").length = 9 := by decide
  simp only [List.length_cons, List.length_append]
  omega

theorem skipWs_serializeVal_record (b : Bool) (e ts v : String) :
    skipWs (serializeVal (.dict [("success", .bool b), ("error", .str e),
      ("timestamp", .str ts), ("versionAtEnd", .str v)])) =
      serializeVal (.dict [("success", .bool b), ("error", .str e),
        ("timestamp", .str ts), ("versionAtEnd", .str v)]) := by
  rw [show serializeVal (.dict [("success", .bool b), ("error", .str e),
      ("timestamp", .str ts), ("versionAtEnd", .str v)]) =
    '\x7b' :: (serializeMembers [("success", .bool b), ("error", .str e),
      ("timestamp", .str ts), ("versionAtEnd", .str v)] ++ ['\x7d']) from by
    simp [serializeVal]]
  rw [skipWs_cons_of '\x7b' _ (by decide)]

theorem parseJson_record (b : Bool) (e ts v : String) :
    parseJson (String.mk (serializeVal (.dict [("success", .bool b),
      ("error", .str e), ("timestamp", .str ts), ("versionAtEnd", .str v)]))) =
      match decode_object [("success", .bool b), ("error", .str e),
        ("timestamp", .str ts), ("versionAtEnd", .str v)] with
      | .ok kvs => .ok (.dict kvs)
      | .error err => .error err := by
  show parseJsonChars (serializeVal (.dict [("success", .bool b),
    ("error", .str e), ("timestamp", .str ts), ("versionAtEnd", .str v)])) = _
  rw [parseJsonChars]
  have h5 := serializeVal_record_length b e ts v
  have hfuel : (serializeVal (.dict [("success", .bool b), ("error", .str e),
      ("timestamp", .str ts), ("versionAtEnd", .str v)])).length + 1 =
      ((serializeVal (.dict [("success", .bool b), ("error", .str e),
        ("timestamp", .str ts), ("versionAtEnd", .str v)])).length - 5)
        + 1 + 1 + 1 + 1 + 1 + 1 := by
    omega
  rw [hfuel, skipWs_serializeVal_record, parseVal_record_nil]
  cases hdec : decode_object [("success", .bool b), ("error", .str e),
      ("timestamp", .str ts), ("versionAtEnd", .str v)] with
  | ok kvs => simp [skipWs]
  | error err => simp

theorem write_typed (b : Bool) (e : String) (t : Datetime) (v : String) :
    write ⟨.bool b, .str e, .dt t, .str v⟩ =
      String.mk (serializeVal (.dict [("success", .bool b), ("error", .str e),
        ("timestamp", .str (Iso8601.to_string t)), ("versionAtEnd", .str v)])) := by
  show String.mk (serializeVal (.dict [("success", .bool b), ("error", .str e),
    ("timestamp", .dt t), ("versionAtEnd", .str v)])) = _
  congr 1

theorem decode_object_record (b : Bool) (e ts v : String) :
    decode_object [("success", .bool b), ("error", .str e),
      ("timestamp", .str ts), ("versionAtEnd", .str v)] =
      match Iso8601.parse ts with
      | some t => .ok [("success", .bool b), ("error", .str e),
          ("timestamp", .dt t), ("versionAtEnd", .str v)]
      | none => .error (.valueError ts) := by
  have eq1 : decode_object [("success", PyObj.bool b), ("error", .str e),
      ("timestamp", .str ts), ("versionAtEnd", .str v)] =
      match Iso8601.parse ts with
      | some t => .ok (dictSet [("success", PyObj.bool b), ("error", .str e),
          ("timestamp", .str ts), ("versionAtEnd", .str v)] "timestamp" (.dt t))
      | none => .error (.valueError ts) := rfl
  rw [eq1]
  cases Iso8601.parse ts with
  | some t => rfl
  | none => rfl

theorem read_eq (s : String) :
    read s =
      match parseJson s with
      | .error e => .error e
      | .ok (.dict kvs) => .ok (extractResult kvs)
      | .ok _ => .error .attributeError := rfl

theorem write_read_typed (b : Bool) (e : String) (t : Datetime)
    (v : String) (h : t.Valid) :
    read (write ⟨.bool b, .str e, .dt t, .str v⟩) =
      .ok ⟨.bool b, .str e, .dt t, .str v⟩ := by
  rw [write_typed, read_eq, parseJson_record, decode_object_record,
    Iso8601.parse_to_string t h]
  rfl

theorem dictGet_append_single (kvs : List (String × PyObj)) (k : String)
    (w : PyObj) (q : String) (h : k ≠ q) :
    dictGet (kvs ++ [(k, w)]) q = dictGet kvs q := by
  induction kvs with
  | nil => simp [dictGet, h]
  | cons p rest ih =>
    obtain ⟨a, pb⟩ := p
    rw [List.cons_append, dictGet, dictGet]
    split
    · rfl
    · exact ih

theorem dictGet_filter_knownKey (kvs : List (String × PyObj)) (q : String)
    (hq : knownKey q = true) :
    dictGet (kvs.filter fun p => knownKey p.1) q = dictGet kvs q := by
  induction kvs with
  | nil => rfl
  | cons p rest ih =>
    obtain ⟨a, w⟩ := p
    rw [List.filter_cons]
    by_cases ha : knownKey a = true
    · rw [if_pos ha, dictGet, dictGet, ih]
    · have hne : a ≠ q := fun hc => ha (hc ▸ hq)
      rw [if_neg ha, dictGet, if_neg hne, ih]

theorem read_of_fields (s : String) (kvs : List (String × PyObj)) (b : Bool)
    (e : String) (t : Datetime) (v : String)
    (hparse : parseJson s = .ok (.dict kvs))
    (hsucc : dictGet kvs "success" = some (.bool b))
    (herr : dictGet kvs "error" = some (.str e))
    (hts : dictGet kvs "timestamp" = some (.dt t))
    (hver : dictGet kvs "versionAtEnd" = some (.str v)) :
    read s = .ok ⟨.bool b, .str e, .dt t, .str v⟩ := by
  rw [read_eq, hparse]
  show Except.ok (extractResult kvs) = _
  have hex : extractResult kvs = ⟨.bool b, .str e, .dt t, .str v⟩ := by
    unfold extractResult
    rw [hsucc, herr, hts, hver]
    rfl
  rw [hex]

/-! ## Claims -/

/-- **C1.**  For every Result record (success: bool, error: str, timestamp:
datetime, version_at_end: str), writing it with `write` and then reading the
produced text back with `read` yields a record whose success, error,
timestamp, and version_at_end fields are equal to those of the original
record.  (`t.Valid` records the field ranges every Python `datetime` object
satisfies.) -/
theorem claim_C1_write_read_roundtrip (b : Bool) (e : String) (t : Datetime)
    (v : String) (h : t.Valid) :
    read (write ⟨.bool b, .str e, .dt t, .str v⟩) =
      .ok ⟨.bool b, .str e, .dt t, .str v⟩ :=
  write_read_typed b e t v h

theorem claim_C1_witness :
    (⟨2021, 2, 10, 8, 57, 35⟩ : Datetime).Valid ∧
      read (write ⟨.bool true, .str "", .dt ⟨2021, 2, 10, 8, 57, 35⟩,
        .str "1.4.2"⟩) =
        .ok ⟨.bool true, .str "", .dt ⟨2021, 2, 10, 8, 57, 35⟩, .str "1.4.2"⟩ :=
  ⟨by decide, claim_C1_write_read_roundtrip true "" ⟨2021, 2, 10, 8, 57, 35⟩
    "1.4.2" (by decide)⟩

/-- **C2.**  For every valid input JSON object containing all four fields
`success` (a bool), `error` (a string), `timestamp` (an ISO-8601 basic
string `ts`, which the decoder hook turns into the datetime `t`), and
`versionAtEnd` (a string), reading it with `read` and then writing the
resulting record with `write` produces JSON whose four field values are the
same as those of the input: the produced text is exactly the serialization
of the JSON object with those same four values, `timestamp` again the
string `ts`. -/
theorem claim_C2_read_write_roundtrip (s : String)
    (kvs : List (String × PyObj)) (b : Bool) (e ts v : String) (t : Datetime)
    (hparse : parseJson s = .ok (.dict kvs))
    (hsucc : dictGet kvs "success" = some (.bool b))
    (herr : dictGet kvs "error" = some (.str e))
    (hts : dictGet kvs "timestamp" = some (.dt t))
    (htss : Iso8601.parse ts = some t)
    (hver : dictGet kvs "versionAtEnd" = some (.str v)) :
    read s = .ok ⟨.bool b, .str e, .dt t, .str v⟩ ∧
      write ⟨.bool b, .str e, .dt t, .str v⟩ =
        String.mk (serializeVal (.dict [("success", .bool b),
          ("error", .str e), ("timestamp", .str ts),
          ("versionAtEnd", .str v)])) := by
  refine ⟨read_of_fields s kvs b e t v hparse hsucc herr hts hver, ?_⟩
  obtain ⟨heq, hvalid⟩ := Iso8601.to_string_of_parse ts t htss
  rw [write_typed, heq]

theorem claim_C2_witness :
    parseJson "\x7b\"success\": true, \"error\": \"\", \"timestamp\": \"2021-02-10T085735Z\", \"versionAtEnd\": \"1.4.2\"\x7d" =
        .ok (.dict [("success", .bool true), ("error", .str ""),
          ("timestamp", .dt ⟨2021, 2, 10, 8, 57, 35⟩),
          ("versionAtEnd", .str "1.4.2")]) ∧
      Iso8601.parse "2021-02-10T085735Z" = some ⟨2021, 2, 10, 8, 57, 35⟩ ∧
      read "\x7b\"success\": true, \"error\": \"\", \"timestamp\": \"2021-02-10T085735Z\", \"versionAtEnd\": \"1.4.2\"\x7d" =
        .ok ⟨.bool true, .str "", .dt ⟨2021, 2, 10, 8, 57, 35⟩, .str "1.4.2"⟩ ∧
      write ⟨.bool true, .str "", .dt ⟨2021, 2, 10, 8, 57, 35⟩, .str "1.4.2"⟩ =
        String.mk (serializeVal (.dict [("success", .bool true),
          ("error", .str ""), ("timestamp", .str "2021-02-10T085735Z"),
          ("versionAtEnd", .str "1.4.2")])) := by
  have h := claim_C2_read_write_roundtrip
    "\x7b\"success\": true, \"error\": \"\", \"timestamp\": \"2021-02-10T085735Z\", \"versionAtEnd\": \"1.4.2\"\x7d"
    [("success", .bool true), ("error", .str ""),
      ("timestamp", .dt ⟨2021, 2, 10, 8, 57, 35⟩),
      ("versionAtEnd", .str "1.4.2")]
    true "" "2021-02-10T085735Z" "1.4.2" ⟨2021, 2, 10, 8, 57, 35⟩
    (by decide) (by decide) (by decide) (by decide) (by decide) (by decide)
  exact ⟨by decide, by decide, h.1, h.2⟩

/-- **C3.**  For every input JSON object, each of the four fields that is
absent from the object is replaced by its default in the record returned by
`read`: success = false, error = the empty string, timestamp = the Unix
epoch 1970-01-01T00:00:00Z, version_at_end = the empty string; in
particular, reading the empty object yields the record with exactly these
four default values. -/
theorem claim_C3_missing_field_defaults :
    (∀ (s : String) (kvs : List (String × PyObj)) (r : Result),
      parseJson s = .ok (.dict kvs) → read s = .ok r →
      (dictGet kvs "success" = none → r.success = .bool false) ∧
      (dictGet kvs "error" = none → r.error = .str "") ∧
      (dictGet kvs "timestamp" = none →
        r.timestamp = .dt ⟨1970, 1, 1, 0, 0, 0⟩) ∧
      (dictGet kvs "versionAtEnd" = none → r.version_at_end = .str "")) ∧
    read "\x7b\x7d" =
      .ok ⟨.bool false, .str "", .dt utcfromtimestamp0, .str ""⟩ := by
  constructor
  · intro s kvs r hp hr
    rw [read_eq, hp] at hr
    injection hr with hr
    subst hr
    refine ⟨?_, ?_, ?_, ?_⟩ <;> intro hnone <;>
      simp [extractResult, hnone, utcfromtimestamp0]
  · decide

theorem claim_C3_witness :
    parseJson "\x7b\x7d" = .ok (.dict []) ∧
      read "\x7b\x7d" =
        .ok ⟨.bool false, .str "", .dt utcfromtimestamp0, .str ""⟩ ∧
      dictGet ([] : List (String × PyObj)) "success" = none ∧
      (⟨.bool false, .str "", .dt utcfromtimestamp0, .str ""⟩ : Result).success
        = .bool false :=
  ⟨by decide, by decide, by decide,
    (claim_C3_missing_field_defaults.1 "\x7b\x7d" []
      ⟨.bool false, .str "", .dt utcfromtimestamp0, .str ""⟩
      (by decide) (by decide)).1 (by decide)⟩

/-- **C4 (counterexample).**  The input `[]` is well-formed JSON and
contains no timestamp, yet `read` raises: the parsed top-level value is a
list, and `.get` on a list raises `AttributeError`.  This refutes the claim
that `read` raises an error exactly when the input is malformed JSON or
contains an unparsable timestamp. -/
theorem claim_C4_counterexample :
    parseJson "[]" = .ok (.list []) ∧ read "[]" = .error .attributeError := by
  decide

/-- **C4 (amended).**  `read` raises an error exactly when parsing with the
custom decoder fails — that is, when the input is malformed JSON or a
decoded object holds a timestamp the timestamp parser cannot parse — or
when the parsed top-level value is not an object; the raised error is the
underlying parser's error, not caught or translated by `read`; and an input
that parses to a top-level JSON object (with any subset of the four fields
missing) never causes `read` to raise. -/
theorem claim_C4_read_error_characterization (s : String) :
    (∀ err, parseJson s = .error err → read s = .error err) ∧
    (∀ kvs, parseJson s = .ok (.dict kvs) → ∃ r, read s = .ok r) ∧
    ((∃ err, read s = .error err) ↔
      (∃ err, parseJson s = .error err) ∨
        ∃ p, parseJson s = .ok p ∧ ∀ kvs, p ≠ .dict kvs) := by
  refine ⟨?_, ?_, ?_, ?_⟩
  · intro err hp
    rw [read_eq, hp]
  · intro kvs hp
    exact ⟨extractResult kvs, by rw [read_eq, hp]⟩
  · rintro ⟨err, he⟩
    rw [read_eq] at he
    cases hp : parseJson s with
    | error e2 => exact Or.inl ⟨e2, rfl⟩
    | ok p =>
      rw [hp] at he
      cases p with
      | dict kvs => exact absurd he (by simp)
      | null => exact Or.inr ⟨.null, rfl, fun kvs => by simp⟩
      | bool b => exact Or.inr ⟨.bool b, rfl, fun kvs => by simp⟩
      | num n => exact Or.inr ⟨.num n, rfl, fun kvs => by simp⟩
      | str st => exact Or.inr ⟨.str st, rfl, fun kvs => by simp⟩
      | dt t => exact Or.inr ⟨.dt t, rfl, fun kvs => by simp⟩
      | list xs => exact Or.inr ⟨.list xs, rfl, fun kvs => by simp⟩
  · rintro (⟨err, hp⟩ | ⟨p, hp, hnd⟩)
    · exact ⟨err, by rw [read_eq, hp]⟩
    · rw [read_eq, hp]
      cases p with
      | dict kvs => exact absurd rfl (hnd kvs)
      | null => exact ⟨.attributeError, rfl⟩
      | bool b => exact ⟨.attributeError, rfl⟩
      | num n => exact ⟨.attributeError, rfl⟩
      | str st => exact ⟨.attributeError, rfl⟩
      | dt t => exact ⟨.attributeError, rfl⟩
      | list xs => exact ⟨.attributeError, rfl⟩

theorem claim_C4_witness :
    parseJson "nope" = .error (.jsonDecodeError "Expecting value") ∧
      read "nope" = .error (.jsonDecodeError "Expecting value") :=
  ⟨by decide, (claim_C4_read_error_characterization "nope").1
    (.jsonDecodeError "Expecting value") (by decide)⟩

/-- **C5.**  Reading the spec's example input yields a record with
success = true, error = the empty string, timestamp equal to the instant
2021-02-10 08:57:35 UTC, and version_at_end = "1.4.2". -/
theorem claim_C5_example_decode :
    read "\x7b\"success\": true, \"error\": \"\", \"timestamp\": \"2021-02-10T085735Z\", \"versionAtEnd\": \"1.4.2\"\x7d" =
      .ok ⟨.bool true, .str "", .dt ⟨2021, 2, 10, 8, 57, 35⟩, .str "1.4.2"⟩ := by
  decide

/-- **C6.**  Writing the record (success = true, error = "", timestamp =
2021-02-10 08:57:35 UTC, version_at_end = "1.4.2") produces JSON in which
the version field appears under the key `versionAtEnd` (not
`version_at_end`) and the timestamp field is the string
`2021-02-10T085735Z`: the output text is exactly the expected JSON. -/
theorem claim_C6_example_encode :
    write ⟨.bool true, .str "", .dt ⟨2021, 2, 10, 8, 57, 35⟩, .str "1.4.2"⟩ =
      "\x7b\"success\": true, \"error\": \"\", \"timestamp\": \"2021-02-10T085735Z\", \"versionAtEnd\": \"1.4.2\"\x7d" := by
  decide

/-- **C7.**  For every `Result` record, the JSON object that `write`
serializes (the dictionary built from `asdict`, the `versionAtEnd`
insertion and the `version_at_end` deletion) has key set exactly
`success, error, timestamp, versionAtEnd` in that order, with
`versionAtEnd` holding the record's `version_at_end` value and no
`version_at_end` key; the written text is the serialization of exactly that
object. -/
theorem claim_C7_versionAtEnd_key (r : Result) :
    (write_result_dict r).map Prod.fst =
      ["success", "error", "timestamp", "versionAtEnd"] ∧
    dictGet (write_result_dict r) "versionAtEnd" = some r.version_at_end ∧
    dictGet (write_result_dict r) "version_at_end" = none ∧
    write r = String.mk (serializeVal (.dict (write_result_dict r))) :=
  ⟨rfl, rfl, rfl, rfl⟩

/-- **C8.**  Neither `read` nor `write` enforces that a successful result
has an empty error message: a record with success = true and a non-empty
error string round-trips through `write` and `read` with both fields
preserved, and `read` accepts an input object with success = true and a
non-empty error string, returning a record with exactly those values. -/
theorem claim_C8_success_error_not_enforced :
    (∀ (e : String) (t : Datetime) (v : String), e ≠ "" → t.Valid →
      read (write ⟨.bool true, .str e, .dt t, .str v⟩) =
        .ok ⟨.bool true, .str e, .dt t, .str v⟩) ∧
    (∀ (s : String) (kvs : List (String × PyObj)) (e : String) (t : Datetime)
      (v : String), e ≠ "" →
      parseJson s = .ok (.dict kvs) →
      dictGet kvs "success" = some (.bool true) →
      dictGet kvs "error" = some (.str e) →
      dictGet kvs "timestamp" = some (.dt t) →
      dictGet kvs "versionAtEnd" = some (.str v) →
      read s = .ok ⟨.bool true, .str e, .dt t, .str v⟩) :=
  ⟨fun e t v _ h => write_read_typed true e t v h,
    fun s kvs e t v _ hp h1 h2 h3 h4 =>
      read_of_fields s kvs true e t v hp h1 h2 h3 h4⟩

theorem claim_C8_witness :
    ("boom" : String) ≠ "" ∧
      read (write ⟨.bool true, .str "boom", .dt ⟨2021, 2, 10, 8, 57, 35⟩,
        .str "1.4.2"⟩) =
        .ok ⟨.bool true, .str "boom", .dt ⟨2021, 2, 10, 8, 57, 35⟩,
          .str "1.4.2"⟩ ∧
      read "\x7b\"success\": true, \"error\": \"boom\", \"timestamp\": \"2021-02-10T085735Z\", \"versionAtEnd\": \"1.4.2\"\x7d" =
        .ok ⟨.bool true, .str "boom", .dt ⟨2021, 2, 10, 8, 57, 35⟩,
          .str "1.4.2"⟩ :=
  ⟨by decide,
    claim_C8_success_error_not_enforced.1 "boom" ⟨2021, 2, 10, 8, 57, 35⟩
      "1.4.2" (by decide) (by decide),
    claim_C8_success_error_not_enforced.2
      "\x7b\"success\": true, \"error\": \"boom\", \"timestamp\": \"2021-02-10T085735Z\", \"versionAtEnd\": \"1.4.2\"\x7d"
      [("success", .bool true), ("error", .str "boom"),
        ("timestamp", .dt ⟨2021, 2, 10, 8, 57, 35⟩),
        ("versionAtEnd", .str "1.4.2")]
      "boom" ⟨2021, 2, 10, 8, 57, 35⟩ "1.4.2" (by decide) (by decide)
      (by decide) (by decide) (by decide) (by decide)⟩

/-- **C9.**  `read` ignores unknown fields: for every input that parses to
a JSON object, the record `read` returns is the one extracted from the
object restricted to the four known keys — so adding any number of extra
keys other than `success`, `error`, `timestamp` and `versionAtEnd`, at any
positions (with values that parsed without error, in particular without a
timestamp parse failure), does not change the record; and the record
depends only on those four keys: two parsed objects that agree on them are
read to the same record. -/
theorem claim_C9_unknown_fields_ignored :
    (∀ (s : String) (kvs : List (String × PyObj)),
      parseJson s = .ok (.dict kvs) →
      read s = .ok (extractResult (kvs.filter fun p => knownKey p.1))) ∧
    (∀ (s1 s2 : String) (kvs1 kvs2 : List (String × PyObj)),
      parseJson s1 = .ok (.dict kvs1) → parseJson s2 = .ok (.dict kvs2) →
      dictGet kvs1 "success" = dictGet kvs2 "success" →
      dictGet kvs1 "error" = dictGet kvs2 "error" →
      dictGet kvs1 "timestamp" = dictGet kvs2 "timestamp" →
      dictGet kvs1 "versionAtEnd" = dictGet kvs2 "versionAtEnd" →
      read s1 = read s2) := by
  constructor
  · intro s kvs hparse
    rw [read_eq, hparse]
    show Except.ok (extractResult kvs) = _
    congr 1
    unfold extractResult
    rw [dictGet_filter_knownKey kvs "success" (by decide),
      dictGet_filter_knownKey kvs "error" (by decide),
      dictGet_filter_knownKey kvs "timestamp" (by decide),
      dictGet_filter_knownKey kvs "versionAtEnd" (by decide)]
  · intro s1 s2 kvs1 kvs2 hp1 hp2 h1 h2 h3 h4
    rw [read_eq, read_eq, hp1, hp2]
    show Except.ok (extractResult kvs1) = Except.ok (extractResult kvs2)
    congr 1
    unfold extractResult
    rw [h1, h2, h3, h4]

theorem claim_C9_witness :
    parseJson "\x7b\"extra\": 5, \"success\": true, \"another\": null\x7d" =
      .ok (.dict [("extra", .num 5), ("success", .bool true),
        ("another", .null)]) ∧
    ([("extra", PyObj.num 5), ("success", .bool true),
      ("another", .null)].filter fun p => knownKey p.1) =
      [("success", .bool true)] ∧
    read "\x7b\"extra\": 5, \"success\": true, \"another\": null\x7d" =
      .ok (extractResult [("success", .bool true)]) ∧
    read "\x7b\"extra\": 5, \"success\": true, \"another\": null\x7d" =
      read "\x7b\"success\": true\x7d" := by
  refine ⟨by decide, by decide, ?_, ?_⟩
  · have h := claim_C9_unknown_fields_ignored.1
      "\x7b\"extra\": 5, \"success\": true, \"another\": null\x7d"
      [("extra", .num 5), ("success", .bool true), ("another", .null)]
      (by decide)
    rwa [show ([("extra", PyObj.num 5), ("success", .bool true),
      ("another", .null)].filter fun p => knownKey p.1) =
      [("success", .bool true)] by decide] at h
  · exact claim_C9_unknown_fields_ignored.2
      "\x7b\"extra\": 5, \"success\": true, \"another\": null\x7d"
      "\x7b\"success\": true\x7d"
      [("extra", .num 5), ("success", .bool true), ("another", .null)]
      [("success", .bool true)]
      (by decide) (by decide) (by decide) (by decide) (by decide) (by decide)

/-- **C10.**  `write` leaves its input unchanged: with the body of `write`
embedded as the explicit state transformer `writeExec` — whose second
component is the record as it stands after the call — the record's four
fields hold the same values as before the call.  The source builds and
mutates only the dictionary copied out of the record by
`dataclasses.asdict` (`write_result_dict`); it never assigns into the
record itself. -/
theorem claim_C10_write_preserves_input (result : Result) :
    (writeExec result).2.success = result.success ∧
    (writeExec result).2.error = result.error ∧
    (writeExec result).2.timestamp = result.timestamp ∧
    (writeExec result).2.version_at_end = result.version_at_end :=
  ⟨rfl, rfl, rfl, rfl⟩
